import Mathlib

/-!
# Garage Management System backend — verification of the claimed properties

Shallow embedding of `server.js` (a Node/Express + Postgres backend).

Modelling conventions:
* Database tables are Lean lists of records; SQL `INSERT` appends,
  `DELETE ... WHERE` filters, `UPDATE ... WHERE` maps over rows.
* JavaScript numbers are modelled as exact rationals `ℚ` (the claims are
  about the formulas the code computes, not about IEEE-754 rounding noise;
  `NaN` is modelled only where a claim depends on it, via `JVal.jnan`).
* A handler is a function `DB → request → result × DB`: the returned `DB`
  is the committed state.  A thrown error inside a `BEGIN`/`ROLLBACK`
  block returns the original `DB` unchanged.
* `CURRENT_TIMESTAMP` / `NOW()` is passed in explicitly as a `now : ℚ`
  parameter; fresh SERIAL ids are passed in as `newId : Nat`.
-/

namespace GMS

/-- Row of the `parts` table (columns the invoicing code reads). -/
structure Part where
  id : Nat
  purchasing_cost : ℚ
  selling_cost : ℚ
deriving Repr, DecidableEq

/-- Row of the `workers` table. -/
structure Worker where
  id : Nat
  name : String
deriving Repr, DecidableEq

/-- Row of the `services` table (`worker_id` is nullable). -/
structure Service where
  id : Nat
  name : String
  worker_id : Option Nat
deriving Repr, DecidableEq

/-- Row of the `vehicles` table. -/
structure Vehicle where
  id : Nat
  plate : String
  make : Option String
  model_name : Option String
  year : Option ℚ
  vin : Option String
  owner : String
  contact_number : String
  entry_time : ℚ
  exit_time : Option ℚ
deriving Repr, DecidableEq

/-- Row of the `vehicle_services` join table. -/
structure VehicleService where
  vehicle_id : Nat
  service_id : Nat
  status : String
  completed_time : Option ℚ
deriving Repr, DecidableEq

/-- Row of the `vehicle_parts` (standalone parts) join table. -/
structure VehiclePart where
  vehicle_id : Nat
  part_id : Nat
  quantity : ℚ
deriving Repr, DecidableEq

/-- Row of the `vehicle_service_parts` join table. -/
structure VehicleServicePart where
  vehicle_id : Nat
  service_id : Nat
  part_id : Nat
  quantity : ℚ
deriving Repr, DecidableEq

/-- Row of the `invoices` table. -/
structure Invoice where
  id : Nat
  vehicle_id : Nat
  days_in_garage : ℚ
  garage_stay_rate : ℚ
  subtotal : ℚ
  tax : ℚ
  total : ℚ
deriving Repr, DecidableEq

/-- Row of the `invoice_items` table. -/
structure InvoiceItem where
  invoice_id : Nat
  item_type : String
  item_id : Nat
  description : Option String
  quantity : ℚ
  purchased_cost : Option ℚ
  unit_price : ℚ
  total : ℚ
deriving Repr, DecidableEq

/-- Row of the `worker_payments` table. -/
structure WorkerPayment where
  id : Nat
  worker_id : Nat
  amount : ℚ
  method : Option String
  notes : Option String
  payment_date : ℚ
deriving Repr, DecidableEq

/-- The whole relational store. -/
structure DB where
  parts : List Part
  workers : List Worker
  services : List Service
  vehicles : List Vehicle
  vehicleServices : List VehicleService
  vehicleParts : List VehiclePart
  vehicleServiceParts : List VehicleServicePart
  invoices : List Invoice
  invoiceItems : List InvoiceItem
  workerPayments : List WorkerPayment
deriving Repr, DecidableEq

/-- The empty database. -/
def DB.empty : DB :=
  { parts := [], workers := [], services := [], vehicles := [],
    vehicleServices := [], vehicleParts := [], vehicleServiceParts := [],
    invoices := [], invoiceItems := [], workerPayments := [] }

/-! ## Invoicing engine: `POST /api/invoices` (server.js:591-666) -/

/-- A line of the request's `services` array:
`{ id, description, unit_price }`. -/
structure SvcLine where
  id : Nat
  description : Option String
  unit_price : ℚ
deriving Repr, DecidableEq

/-- A line of the request's `parts` array: `{ id, description, quantity }`. -/
structure PartLine where
  id : Nat
  description : Option String
  quantity : ℚ
deriving Repr, DecidableEq

/-- Body of `POST /api/invoices`.  `services`/`parts` are `none` when the
field is not an array (`Array.isArray` fails and the loop is skipped). -/
structure InvoiceReq where
  vehicle_id : Nat
  days_in_garage : ℚ
  services : Option (List SvcLine)
  parts : Option (List PartLine)
deriving Repr, DecidableEq

/-- `SELECT ... FROM parts WHERE id = $1` (server.js:629-631). -/
def findPart (parts : List Part) (pid : Nat) : Option Part :=
  parts.find? (fun p => p.id == pid)

/-- One `invoice_items` row inserted for a service line (server.js:617-622):
`lineTotal = parseFloat(svc.unit_price || 0)`, quantity fixed at 1,
`purchased_cost` NULL, `unit_price` and `total` both the line total. -/
def serviceItem (invoiceId : Nat) (svc : SvcLine) : InvoiceItem :=
  { invoice_id := invoiceId, item_type := "service", item_id := svc.id,
    description := svc.description, quantity := 1, purchased_cost := none,
    unit_price := svc.unit_price, total := svc.unit_price }

/-- The services loop (server.js:613-624): builds the inserted
`invoice_items` rows in order and the running `itemsTotal` contribution. -/
def processServices (invoiceId : Nat) : List SvcLine → List InvoiceItem × ℚ
  | [] => ([], 0)
  | svc :: rest =>
    let lineTotal := svc.unit_price
    let (items, tot) := processServices invoiceId rest
    (serviceItem invoiceId svc :: items, lineTotal + tot)

/-- The parts loop (server.js:627-645): looks each part id up in the parts
store, throws (`none`) when a referenced id is absent, otherwise builds the
inserted `invoice_items` rows (line total = `selling_cost * quantity`) and
the running `itemsTotal` contribution. -/
def processParts (dbParts : List Part) (invoiceId : Nat) :
    List PartLine → Option (List InvoiceItem × ℚ)
  | [] => some ([], 0)
  | pl :: rest =>
    match findPart dbParts pl.id with
    | none => none
    | some p =>
      let lineTotal := p.selling_cost * pl.quantity
      match processParts dbParts invoiceId rest with
      | none => none
      | some (items, tot) =>
        some ({ invoice_id := invoiceId, item_type := "part", item_id := pl.id,
                description := pl.description, quantity := pl.quantity,
                purchased_cost := some p.purchasing_cost,
                unit_price := p.selling_cost, total := lineTotal } :: items,
              lineTotal + tot)

/-- Outcome of `POST /api/invoices`. -/
inductive CreateInvoiceResult where
  | created (invoice_id : Nat)
  | validationError
  | serverError
deriving Repr, DecidableEq

/-- `POST /api/invoices` (server.js:591-666).  The guard
`!vehicle_id || !days_in_garage` rejects JS-falsy values, i.e. the
number 0 or a missing field (modelled as 0).  On a missing part id the
handler throws and the transaction `ROLLBACK` restores the original
state, discarding the placeholder invoice insert and all item inserts.
On success the committed invoice row carries the recomputed totals:
`subtotal = itemsTotal + days_in_garage * 5000`, `tax = subtotal * 0.18`
(no rounding), `total = subtotal + tax`. -/
def createInvoice (db : DB) (req : InvoiceReq) (newId : Nat) :
    CreateInvoiceResult × DB :=
  if req.vehicle_id == 0 || req.days_in_garage == 0 then
    (.validationError, db)
  else
    let (svcItems, svcTotal) := processServices newId (req.services.getD [])
    match processParts db.parts newId (req.parts.getD []) with
    | none => (.serverError, db)
    | some (partItems, partTotal) =>
      let itemsTotal := svcTotal + partTotal
      let garageStayTotal := req.days_in_garage * 5000
      let subtotal := itemsTotal + garageStayTotal
      let tax := subtotal * (18 / 100)
      let total := subtotal + tax
      let inv : Invoice :=
        { id := newId, vehicle_id := req.vehicle_id,
          days_in_garage := req.days_in_garage, garage_stay_rate := 5000,
          subtotal := subtotal, tax := tax, total := total }
      (.created newId,
       { db with invoices := db.invoices ++ [inv],
                 invoiceItems := db.invoiceItems ++ (svcItems ++ partItems) })

/-! ## Invoice PDF: `GET /api/invoices/:id/pdf` (server.js:707-809) -/

/-- The tax figure the PDF prints (server.js:742):
`Math.round(subtotalRWF * 0.18)` — recomputed from the stored subtotal,
rounded, unlike the create path. -/
def pdfTax (inv : Invoice) : ℤ :=
  round (inv.subtotal * (18 / 100))

/-- The total figure the PDF prints (server.js:743):
`subtotalRWF + taxRWF`. -/
def pdfTotal (inv : Invoice) : ℚ :=
  inv.subtotal + (pdfTax inv : ℚ)

/-! ## Vehicle exit: `PUT /api/vehicles/:id/exit` (server.js:533-558) -/

/-- `SELECT COUNT(*) FROM vehicle_services WHERE vehicle_id = $1 AND
status != 'completed'` (server.js:536-539). -/
def countIncomplete (db : DB) (vid : Nat) : Nat :=
  (db.vehicleServices.filter
    (fun vs => vs.vehicle_id == vid && vs.status != "completed")).length

/-- `SELECT COUNT(*) FROM invoices WHERE vehicle_id = $1`
(server.js:544-547). -/
def invoiceCount (db : DB) (vid : Nat) : Nat :=
  (db.invoices.filter (fun i => i.vehicle_id == vid)).length

/-- Outcome of `PUT /api/vehicles/:id/exit`. -/
inductive ExitResult where
  | ok
  | servicesIncomplete
  | invoiceMissing
deriving Repr, DecidableEq

/-- `PUT /api/vehicles/:id/exit` (server.js:533-558): 400 if any
vehicle_services row is not completed, else 400 if no invoice exists,
else `UPDATE vehicles SET exit_time = NOW() WHERE id = $1`.  Note: there
is no check that `exit_time` is still NULL. -/
def exitVehicle (db : DB) (vid : Nat) (now : ℚ) : ExitResult × DB :=
  if 0 < countIncomplete db vid then
    (.servicesIncomplete, db)
  else if invoiceCount db vid == 0 then
    (.invoiceMissing, db)
  else
    (.ok, { db with vehicles :=
              db.vehicles.map (fun v =>
                if v.id == vid then { v with exit_time := some now } else v) })

/-! ## Vehicle update: `PUT /api/vehicles/:id` (server.js:476-531) -/

/-- A line of the request's `standalone_parts` array. -/
structure VPartLine where
  part_id : Nat
  quantity : ℚ
deriving Repr, DecidableEq

/-- A line of the request's `service_parts` array. -/
structure VSPartLine where
  service_id : Nat
  part_id : Nat
  quantity : ℚ
deriving Repr, DecidableEq

/-- Body of `PUT /api/vehicles/:id`; the two part lists are `none` when
the field is not an array (`Array.isArray` fails, nothing is inserted). -/
structure UpdateVehicleReq where
  plate : String
  make : Option String
  model_name : Option String
  year : Option ℚ
  vin : Option String
  owner : String
  contact_number : String
  standalone_parts : Option (List VPartLine)
  service_parts : Option (List VSPartLine)
deriving Repr, DecidableEq

/-- Outcome of a mutating endpoint that can 400/404. -/
inductive UpdateResult where
  | ok
  | validationError
  | notFound
deriving Repr, DecidableEq

/-- The `vehicle_parts` rows inserted for a supplied standalone-parts
list (server.js:501-509). -/
def standalonePartRows (vid : Nat) (l : List VPartLine) : List VehiclePart :=
  l.map (fun p => { vehicle_id := vid, part_id := p.part_id, quantity := p.quantity })

/-- The `vehicle_service_parts` rows inserted for a supplied
service-parts list (server.js:512-520). -/
def servicePartRows (vid : Nat) (l : List VSPartLine) : List VehicleServicePart :=
  l.map (fun sp => { vehicle_id := vid, service_id := sp.service_id,
                     part_id := sp.part_id, quantity := sp.quantity })

/-- `PUT /api/vehicles/:id` (server.js:476-531): validates
plate/owner/contact_number (JS-falsy check on strings: empty means
missing), updates the vehicle row (404 + ROLLBACK if no row matched),
then deletes all `vehicle_parts` and `vehicle_service_parts` rows of the
vehicle and re-inserts the caller-supplied lists, all in one
transaction. -/
def updateVehicle (db : DB) (vid : Nat) (req : UpdateVehicleReq) :
    UpdateResult × DB :=
  if req.plate == "" || req.owner == "" || req.contact_number == "" then
    (.validationError, db)
  else
    match db.vehicles.find? (fun v => v.id == vid) with
    | none => (.notFound, db)
    | some _ =>
      (.ok,
       { db with
          vehicles := db.vehicles.map (fun v =>
            if v.id == vid then
              { v with plate := req.plate, make := req.make,
                       model_name := req.model_name, year := req.year,
                       vin := req.vin, owner := req.owner,
                       contact_number := req.contact_number }
            else v),
          vehicleParts :=
            db.vehicleParts.filter (fun r => r.vehicle_id != vid)
              ++ standalonePartRows vid (req.standalone_parts.getD []),
          vehicleServiceParts :=
            db.vehicleServiceParts.filter (fun r => r.vehicle_id != vid)
              ++ servicePartRows vid (req.service_parts.getD []) })

/-! ## Worker delete: `DELETE /api/workers/:id` (server.js:236-262) -/

/-- Outcome of a delete endpoint. -/
inductive DeleteResult where
  | noContent
  | notFound
deriving Repr, DecidableEq

/-- `DELETE /api/workers/:id` (server.js:236-262): in one transaction,
`UPDATE services SET worker_id = NULL WHERE worker_id = $1`, then
`DELETE FROM worker_payments WHERE worker_id = $1`, then
`DELETE FROM workers WHERE id = $1 RETURNING id`; COMMIT happens before
the row-count check, so the (no-op) writes commit even on 404. -/
def deleteWorker (db : DB) (wid : Nat) : DeleteResult × DB :=
  let services' := db.services.map (fun s =>
    if s.worker_id == some wid then { s with worker_id := none } else s)
  let payments' := db.workerPayments.filter (fun p => p.worker_id != wid)
  let deletedCount := (db.workers.filter (fun w => w.id == wid)).length
  let workers' := db.workers.filter (fun w => w.id != wid)
  let db' := { db with services := services', workerPayments := payments',
                       workers := workers' }
  if deletedCount == 0 then (.notFound, db') else (.noContent, db')

/-! ## Vehicle delete: two registrations of `DELETE /api/vehicles/:id` -/

/-- First registration (server.js:578-588): a single
`DELETE FROM vehicles WHERE id = $1 RETURNING id`, no cascade. -/
def deleteVehicleFirst (db : DB) (vid : Nat) : DeleteResult × DB :=
  let deletedCount := (db.vehicles.filter (fun v => v.id == vid)).length
  let db' := { db with vehicles := db.vehicles.filter (fun v => v.id != vid) }
  if deletedCount == 0 then (.notFound, db') else (.noContent, db')

/-- Second registration (server.js:986-1015): one transaction deleting
`invoice_items` of the vehicle's invoices, then those `invoices`, then
the vehicle row; 404 checked after the deletes. -/
def deleteVehicleCascade (db : DB) (vid : Nat) : DeleteResult × DB :=
  let invoiceIds := (db.invoices.filter (fun i => i.vehicle_id == vid)).map (fun i => i.id)
  let items' := db.invoiceItems.filter (fun it => !(invoiceIds.contains it.invoice_id))
  let invoices' := db.invoices.filter (fun i => i.vehicle_id != vid)
  let deletedCount := (db.vehicles.filter (fun v => v.id == vid)).length
  let vehicles' := db.vehicles.filter (fun v => v.id != vid)
  let db' := { db with invoiceItems := items', invoices := invoices',
                       vehicles := vehicles' }
  if deletedCount == 0 then (.notFound, db') else (.noContent, db')

/-- The registration order of the two `DELETE /api/vehicles/:id` handlers
in `server.js` (line 578 first, line 986 second). -/
def deleteVehicleRegistrations : List (DB → Nat → DeleteResult × DB) :=
  [deleteVehicleFirst, deleteVehicleCascade]

/-- Express dispatches a request to the first registered route whose
method and path match; both registrations share method DELETE and path
`/api/vehicles/:id`, so the first one (server.js:578, no cascade)
handles every such request and the second (server.js:986) is
unreachable. -/
def handleDeleteVehicle (db : DB) (vid : Nat) : DeleteResult × DB :=
  match deleteVehicleRegistrations with
  | [] => (.notFound, db)
  | h :: _ => h db vid

/-! ## Worker payments: `POST /api/workers/:id/payments`
(server.js:836-868) -/

/-- A JSON value in the `amount` position: absent/null, a number, or a
value (such as a non-numeric non-empty string) whose `Number()` is
`NaN`. -/
inductive JVal where
  | jnull
  | jnum (q : ℚ)
  | jnan
deriving Repr, DecidableEq

/-- JavaScript truthiness test `!x` (negated): null/undefined and the
number 0 are falsy; a NaN-producing non-empty string is truthy. -/
def jsTruthy : JVal → Bool
  | .jnull => false
  | .jnum q => !(q == 0)
  | .jnan => true

/-- JavaScript `Number(x)`: `none` models `NaN`. -/
def jsNumber : JVal → Option ℚ
  | .jnull => some 0
  | .jnum q => some q
  | .jnan => none

/-- The supplied `payment_date`: absent (or JS-falsy), a parseable date
(its timestamp), or an unparseable value (`new Date(x)` is Invalid
Date). -/
inductive DateVal where
  | dabsent
  | dvalid (t : ℚ)
  | dinvalid
deriving Repr, DecidableEq

/-- Body of `POST /api/workers/:id/payments`. -/
structure PaymentReq where
  amount : JVal
  method : Option String
  notes : Option String
  payment_date : DateVal
deriving Repr, DecidableEq

/-- Outcome of `POST /api/workers/:id/payments`. -/
inductive AddPaymentResult where
  | created (p : WorkerPayment)
  | invalidAmount
deriving Repr, DecidableEq

/-- `let when = null; if (payment_date) { const parsed = new
Date(payment_date); if (!isNaN(parsed.getTime())) when = parsed; }`
(server.js:847-851). -/
def resolveWhen : DateVal → Option ℚ
  | .dvalid t => some t
  | _ => none

/-- `POST /api/workers/:id/payments` (server.js:836-868): rejects when
`!amount || isNaN(Number(amount))`; inserts with
`payment_date = COALESCE($5, NOW())` — the store-resolved current time
when no parseable date was supplied. -/
def addPayment (db : DB) (wid : Nat) (req : PaymentReq) (now : ℚ)
    (newId : Nat) : AddPaymentResult × DB :=
  if !(jsTruthy req.amount) || (jsNumber req.amount).isNone then
    (.invalidAmount, db)
  else
    let p : WorkerPayment :=
      { id := newId, worker_id := wid,
        amount := (jsNumber req.amount).getD 0,
        method := req.method, notes := req.notes,
        payment_date := (resolveWhen req.payment_date).getD now }
    (.created p, { db with workerPayments := db.workerPayments ++ [p] })

/-! ## Helper lemmas -/

/-- The service loop's running total equals the sum of the inserted
items' `total` columns. -/
theorem processServices_sum (invoiceId : Nat) (l : List SvcLine) :
    (((processServices invoiceId l).1.map (fun it => it.total)).sum)
      = (processServices invoiceId l).2 := by
  induction l with
  | nil => simp [processServices]
  | cons svc rest ih => simp [processServices, serviceItem, ih]

/-- Every item inserted by the service loop belongs to the new invoice. -/
theorem processServices_invoice_id (invoiceId : Nat) (l : List SvcLine) :
    ∀ it ∈ (processServices invoiceId l).1, it.invoice_id = invoiceId := by
  induction l with
  | nil => simp [processServices]
  | cons svc rest ih =>
    intro it hit
    simp only [processServices, List.mem_cons] at hit
    rcases hit with h | h
    · subst h; rfl
    · exact ih it h

/-- When the parts loop succeeds, its running total equals the sum of
the inserted items' `total` columns, and every inserted item belongs to
the new invoice. -/
theorem processParts_sum (dbParts : List Part) (invoiceId : Nat) :
    ∀ (l : List PartLine) (items : List InvoiceItem) (tot : ℚ),
      processParts dbParts invoiceId l = some (items, tot) →
      ((items.map (fun it => it.total)).sum = tot ∧
        ∀ it ∈ items, it.invoice_id = invoiceId) := by
  intro l
  induction l with
  | nil =>
    intro items tot h
    simp [processParts] at h
    obtain ⟨h1, h2⟩ := h
    subst h1; subst h2
    simp
  | cons pl rest ih =>
    intro items tot h
    simp only [processParts] at h
    rcases hfp : findPart dbParts pl.id with _ | p
    · rw [hfp] at h; simp at h
    · rw [hfp] at h
      rcases hrec : processParts dbParts invoiceId rest with _ | ⟨restItems, restTot⟩
      · rw [hrec] at h; simp at h
      · rw [hrec] at h
        simp only [Option.some.injEq, Prod.mk.injEq] at h
        obtain ⟨h1, h2⟩ := h
        subst h1; subst h2
        obtain ⟨ihsum, ihmem⟩ := ih restItems restTot hrec
        constructor
        · simp [ihsum]
        · intro it hit
          rcases List.mem_cons.mp hit with h | h
          · subst h; rfl
          · exact ihmem it h

/-- A parts list referencing a missing part id makes the parts loop
throw. -/
theorem processParts_missing (dbParts : List Part) (invoiceId : Nat) :
    ∀ (l : List PartLine), (∃ pl ∈ l, findPart dbParts pl.id = none) →
      processParts dbParts invoiceId l = none := by
  intro l
  induction l with
  | nil => rintro ⟨pl, hmem, _⟩; simp at hmem
  | cons hd rest ih =>
    rintro ⟨pl, hmem, hnone⟩
    rcases List.mem_cons.mp hmem with h | h
    · subst h
      simp [processParts, hnone]
    · simp only [processParts]
      rcases hfp : findPart dbParts hd.id with _ | p
      · rfl
      · rw [ih ⟨pl, h, hnone⟩]

/-- A list of rows all carrying the key survives a filter for that key
unchanged, after rows not carrying it are filtered out. -/
theorem filter_append_invoice_id (pre post : List InvoiceItem) (newId : Nat)
    (hpre : ∀ it ∈ pre, it.invoice_id ≠ newId)
    (hpost : ∀ it ∈ post, it.invoice_id = newId) :
    (pre ++ post).filter (fun it => it.invoice_id == newId) = post := by
  rw [List.filter_append]
  have h1 : pre.filter (fun it => it.invoice_id == newId) = [] := by
    rw [List.filter_eq_nil_iff]
    intro a ha
    simpa using hpre a ha
  have h2 : post.filter (fun it => it.invoice_id == newId) = post := by
    rw [List.filter_eq_self]
    intro a ha
    simpa using hpost a ha
  rw [h1, h2, List.nil_append]

/-! ## Claims -/

/-- C1 (amended): every invoice persisted by the create-invoice
operation satisfies `subtotal = (sum of its items' totals)
+ days_in_garage * garage_stay_rate` with `garage_stay_rate` the fixed
constant 5000, `tax = subtotal * 0.18` (stored unrounded — the claim's
`round` is what fails), and `total = subtotal + tax`. -/
theorem createInvoice_financial_columns (db : DB) (req : InvoiceReq)
    (newId id' : Nat) (db' : DB)
    (h : createInvoice db req newId = (.created id', db'))
    (hfresh : ∀ it ∈ db.invoiceItems, it.invoice_id ≠ newId) :
    ∃ inv, db'.invoices = db.invoices ++ [inv] ∧
      inv.days_in_garage = req.days_in_garage ∧
      inv.garage_stay_rate = 5000 ∧
      inv.subtotal =
        ((db'.invoiceItems.filter (fun it => it.invoice_id == newId)).map
            (fun it => it.total)).sum
          + inv.days_in_garage * inv.garage_stay_rate ∧
      inv.tax = inv.subtotal * (18 / 100) ∧
      inv.total = inv.subtotal + inv.tax := by
  unfold createInvoice at h
  split at h
  · exact absurd h (by simp)
  · rcases hpp : processParts db.parts newId (req.parts.getD [])
      with _ | ⟨partItems, partTotal⟩
    · rw [hpp] at h; exact absurd h (by simp)
    · rw [hpp] at h
      simp only [Prod.mk.injEq, CreateInvoiceResult.created.injEq] at h
      obtain ⟨-, hdb⟩ := h
      subst hdb
      refine ⟨_, rfl, rfl, rfl, ?_, rfl, rfl⟩
      have hmem₁ := processServices_invoice_id newId (req.services.getD [])
      obtain ⟨hsum₂, hmem₂⟩ :=
        processParts_sum db.parts newId (req.parts.getD []) partItems partTotal hpp
      have hfilter :
          ((db.invoiceItems ++ ((processServices newId (req.services.getD [])).1
              ++ partItems)).filter (fun it => it.invoice_id == newId))
            = (processServices newId (req.services.getD [])).1 ++ partItems := by
        refine filter_append_invoice_id _ _ _ hfresh ?_
        intro it hit
        rcases List.mem_append.mp hit with h | h
        · exact hmem₁ it h
        · exact hmem₂ it h
      simp only [hfilter, List.map_append, List.sum_append,
        processServices_sum, hsum₂]

/-- A default row used only as the `List.getD` fallback when reading the
single invoice out of a concretely computed database. -/
def inv0 : Invoice :=
  { id := 0, vehicle_id := 0, days_in_garage := 0, garage_stay_rate := 0,
    subtotal := 0, tax := 0, total := 0 }

/-- C1 counterexample input: one service line with unit price 3 and one
day in the garage. -/
def reqC1 : InvoiceReq :=
  { vehicle_id := 1, days_in_garage := 1,
    services := some [{ id := 1, description := some "Oil change", unit_price := 3 }],
    parts := some [] }

/-- C1 (counterexample): the stored `tax` column is `subtotal * 0.18`
unrounded; for the concrete request `reqC1` the stored subtotal is 5003
and the stored tax 900.54, which differs from
`round(subtotal * 0.18) = 901` asserted by the claim. -/
theorem createInvoice_tax_not_rounded :
    ((createInvoice DB.empty reqC1 1).2.invoices.getD 0 inv0).subtotal = 5003 ∧
    ((createInvoice DB.empty reqC1 1).2.invoices.getD 0 inv0).tax = 90054 / 100 ∧
    ((round ((5003 : ℚ) * (18 / 100)) : ℤ) : ℚ) = 901 ∧
    ((createInvoice DB.empty reqC1 1).2.invoices.getD 0 inv0).tax ≠
      ((round (((createInvoice DB.empty reqC1 1).2.invoices.getD 0 inv0).subtotal
          * (18 / 100)) : ℤ) : ℚ) := by
  have hrun : createInvoice DB.empty reqC1 1 =
      (.created 1,
       { DB.empty with
          invoices := [{ id := 1, vehicle_id := 1, days_in_garage := 1,
                         garage_stay_rate := 5000, subtotal := 5003,
                         tax := 90054 / 100, total := 5003 + 90054 / 100 }],
          invoiceItems := [serviceItem 1 { id := 1, description := some "Oil change",
                                           unit_price := 3 }] }) := by
    simp only [createInvoice, reqC1, DB.empty, processServices, processParts,
      Prod.mk.injEq, CreateInvoiceResult.created.injEq]
    norm_num
  rw [hrun]
  have hround : ((round ((5003 : ℚ) * (18 / 100)) : ℤ) : ℚ) = 901 := by
    rw [show ((5003 : ℚ) * (18 / 100)) = 90054 / 100 by norm_num]
    rw [round_eq]
    norm_num
  refine ⟨rfl, rfl, hround, ?_⟩
  simp only [List.getD_cons_zero]
  rw [hround]
  norm_num

/-- C1 witness input: no items, one day in the garage. -/
def reqW1 : InvoiceReq :=
  { vehicle_id := 1, days_in_garage := 1, services := some [], parts := some [] }

/-- The state committed by `createInvoice DB.empty reqW1 1`. -/
def dbW1 : DB :=
  { DB.empty with
     invoices := [{ id := 1, vehicle_id := 1, days_in_garage := 1,
                    garage_stay_rate := 5000, subtotal := 5000, tax := 900,
                    total := 5900 }] }

/-- C1 witness: the financial-columns theorem applied to the concrete
run `createInvoice DB.empty reqW1 1`. -/
theorem createInvoice_financial_columns_witness :
    ∃ inv, dbW1.invoices = DB.empty.invoices ++ [inv] ∧
      inv.days_in_garage = reqW1.days_in_garage ∧
      inv.garage_stay_rate = 5000 ∧
      inv.subtotal =
        ((dbW1.invoiceItems.filter (fun it => it.invoice_id == 1)).map
            (fun it => it.total)).sum
          + inv.days_in_garage * inv.garage_stay_rate ∧
      inv.tax = inv.subtotal * (18 / 100) ∧
      inv.total = inv.subtotal + inv.tax :=
  createInvoice_financial_columns DB.empty reqW1 1 1 dbW1
    (by
      simp only [createInvoice, reqW1, DB.empty, dbW1, processServices,
        processParts, Prod.mk.injEq, CreateInvoiceResult.created.injEq]
      norm_num)
    (by simp [DB.empty])

/-- C2: a create-invoice request whose parts list references a part id
absent from the parts store fails (the handler throws and the
transaction rolls back), leaving the whole database — in particular the
`invoices` and `invoice_items` tables — unchanged, and never returns a
created invoice id. -/
theorem createInvoice_missing_part_rollback (db : DB) (req : InvoiceReq)
    (newId : Nat)
    (h : ∃ pl ∈ req.parts.getD [], findPart db.parts pl.id = none) :
    (createInvoice db req newId).2 = db ∧
    ∀ i, (createInvoice db req newId).1 ≠ CreateInvoiceResult.created i := by
  have hpp := processParts_missing db.parts newId _ h
  rcases hps : processServices newId (req.services.getD []) with ⟨svcItems, svcTotal⟩
  by_cases hc : (req.vehicle_id == 0 || req.days_in_garage == 0) = true
  · constructor
    · simp [createInvoice, hc]
    · intro i
      simp [createInvoice, hc]
  · constructor
    · simp [createInvoice, hc, hps, hpp]
    · intro i
      simp [createInvoice, hc, hps, hpp]

/-- C2 witness database: a parts store holding only part id 3. -/
def dbC2 : DB :=
  { DB.empty with
     parts := [{ id := 3, purchasing_cost := 10, selling_cost := 20 }] }

/-- C2 witness request: references part id 5, which is not in `dbC2`. -/
def reqC2 : InvoiceReq :=
  { vehicle_id := 1, days_in_garage := 2, services := some [],
    parts := some [{ id := 5, description := none, quantity := 1 }] }

/-- C2 witness: the rollback theorem applied to the concrete run
`createInvoice dbC2 reqC2 7`. -/
theorem createInvoice_missing_part_rollback_witness :
    (createInvoice dbC2 reqC2 7).2 = dbC2 ∧
    (createInvoice dbC2 reqC2 7).1 ≠ CreateInvoiceResult.created 7 := by
  have h := createInvoice_missing_part_rollback dbC2 reqC2 7
    (by
      refine ⟨{ id := 5, description := none, quantity := 1 }, ?_, ?_⟩
      · simp [reqC2]
      · simp [dbC2, findPart, DB.empty])
  exact ⟨h.1, h.2 7⟩

/-- C10: a create-invoice request with a valid (nonzero) vehicle id but
`days_in_garage = 0` is rejected by the JS-falsy guard
`!vehicle_id || !days_in_garage` with a validation error, and nothing is
persisted. -/
theorem createInvoice_days_zero_rejected (db : DB) (req : InvoiceReq)
    (newId : Nat) (hv : req.vehicle_id ≠ 0)
    (hd : req.days_in_garage = 0) :
    createInvoice db req newId = (.validationError, db) := by
  unfold createInvoice
  have hc : (req.vehicle_id == 0 || req.days_in_garage == 0) = true := by
    simp [hd]
  rw [if_pos hc]

/-- C10 witness request: vehicle id 1, zero days in the garage. -/
def reqC10 : InvoiceReq :=
  { vehicle_id := 1, days_in_garage := 0,
    services := some [{ id := 2, description := none, unit_price := 100 }],
    parts := some [] }

/-- C10 witness: the rejection theorem applied to the concrete run
`createInvoice DB.empty reqC10 3`. -/
theorem createInvoice_days_zero_rejected_witness :
    createInvoice DB.empty reqC10 3 = (.validationError, DB.empty) :=
  createInvoice_days_zero_rejected DB.empty reqC10 3
    (by simp [reqC10]) (by simp [reqC10])

/-- Shared helper: a successful create appends exactly one invoice row,
whose `tax` and `total` columns satisfy the create-path formulas
`tax = subtotal * 0.18` (unrounded) and `total = subtotal + tax`. -/
theorem createInvoice_created_fields (db : DB) (req : InvoiceReq)
    (newId id' : Nat) (db' : DB)
    (h : createInvoice db req newId = (.created id', db')) :
    ∃ inv, db'.invoices = db.invoices ++ [inv] ∧
      inv.tax = inv.subtotal * (18 / 100) ∧
      inv.total = inv.subtotal + inv.tax := by
  unfold createInvoice at h
  split at h
  · exact absurd h (by simp)
  · rcases hpp : processParts db.parts newId (req.parts.getD [])
      with _ | ⟨partItems, partTotal⟩
    · rw [hpp] at h; exact absurd h (by simp)
    · rw [hpp] at h
      simp only [Prod.mk.injEq, CreateInvoiceResult.created.injEq] at h
      obtain ⟨-, hdb⟩ := h
      subst hdb
      exact ⟨_, rfl, rfl, rfl⟩

/-- C5 (amended): the tax and total the invoice PDF renders (recomputed
from the stored subtotal with `Math.round(subtotal * 0.18)`) agree with
the tax and total the create path stored exactly when
`subtotal * 0.18` is an integer; the create path does not round, so on
fractional results the two inlined computations disagree. -/
theorem pdf_agrees_with_create_iff_integral (db : DB) (req : InvoiceReq)
    (newId id' : Nat) (db' : DB) (inv : Invoice)
    (h : createInvoice db req newId = (.created id', db'))
    (hinv : db'.invoices = db.invoices ++ [inv]) :
    ((∃ k : ℤ, inv.subtotal * (18 / 100) = (k : ℚ)) →
      (pdfTax inv : ℚ) = inv.tax ∧ pdfTotal inv = inv.total) ∧
    ((∀ k : ℤ, inv.subtotal * (18 / 100) ≠ (k : ℚ)) →
      (pdfTax inv : ℚ) ≠ inv.tax ∧ pdfTotal inv ≠ inv.total) := by
  obtain ⟨inv', hinv', htax, htot⟩ :=
    createInvoice_created_fields db req newId id' db' h
  have heq : inv = inv' := by
    rw [hinv] at hinv'
    have := List.append_cancel_left hinv'
    simpa using this
  subst heq
  constructor
  · rintro ⟨m, hm⟩
    have hpt : (pdfTax inv : ℚ) = (m : ℚ) := by
      unfold pdfTax
      rw [hm, round_intCast]
    refine ⟨?_, ?_⟩
    · rw [hpt, htax, hm]
    · unfold pdfTotal
      rw [hpt, htot, htax, hm]
  · intro hk
    have hne : (pdfTax inv : ℚ) ≠ inv.tax := by
      intro hc
      rw [htax] at hc
      exact hk (pdfTax inv) hc.symm
    refine ⟨hne, ?_⟩
    intro hc
    unfold pdfTotal at hc
    rw [htot] at hc
    exact hne (by linarith)

/-- C5 witness input: one service line with unit price 50 and one day in
the garage, so the stored subtotal is 5050 and `5050 * 0.18 = 909` is an
integer. -/
def reqW5 : InvoiceReq :=
  { vehicle_id := 2, days_in_garage := 1,
    services := some [{ id := 4, description := some "Wash", unit_price := 50 }],
    parts := some [] }

/-- The state committed by `createInvoice DB.empty reqW5 1`. -/
def dbW5 : DB :=
  { DB.empty with
     invoices := [{ id := 1, vehicle_id := 2, days_in_garage := 1,
                    garage_stay_rate := 5000, subtotal := 5050, tax := 909,
                    total := 5959 }],
     invoiceItems := [serviceItem 1 { id := 4, description := some "Wash",
                                      unit_price := 50 }] }

/-- The single invoice row of `dbW5`. -/
def invW5 : Invoice :=
  { id := 1, vehicle_id := 2, days_in_garage := 1, garage_stay_rate := 5000,
    subtotal := 5050, tax := 909, total := 5959 }

/-- C5 witness: the agreement theorem applied to the concrete run
`createInvoice DB.empty reqW5 1`, whose subtotal 5050 has integral tax
909. -/
theorem pdf_agrees_with_create_iff_integral_witness :
    (pdfTax invW5 : ℚ) = invW5.tax ∧ pdfTotal invW5 = invW5.total :=
  (pdf_agrees_with_create_iff_integral DB.empty reqW5 1 1 dbW5 invW5
    (by
      simp only [createInvoice, reqW5, DB.empty, dbW5, invW5, processServices,
        processParts, serviceItem, Prod.mk.injEq,
        CreateInvoiceResult.created.injEq]
      norm_num)
    (by simp [dbW5, DB.empty, invW5])).1
    ⟨909, by
      show invW5.subtotal * (18 / 100) = ((909 : ℤ) : ℚ)
      norm_num [invW5]⟩

/-- C5 counterexample input: one service line with unit price 7 and one
day in the garage, so the stored subtotal is 5007 and
`5007 * 0.18 = 901.26` is fractional. -/
def reqC5 : InvoiceReq :=
  { vehicle_id := 1, days_in_garage := 1,
    services := some [{ id := 9, description := none, unit_price := 7 }],
    parts := some [] }

/-- The invoice row committed for `reqC5`: subtotal 5007, stored tax
`901.26` (unrounded). -/
def invC5 : Invoice :=
  { id := 1, vehicle_id := 1, days_in_garage := 1, garage_stay_rate := 5000,
    subtotal := 5007, tax := 90126 / 100, total := 5007 + 90126 / 100 }

/-- C5 (counterexample): for the invoice created from `reqC5` the PDF
renders tax 901 and total 5908 while the stored columns are tax 901.26
and total 5908.26 — the two inlined computations do not agree on every
input. -/
theorem pdf_disagrees_with_create :
    (pdfTax ((createInvoice DB.empty reqC5 1).2.invoices.getD 0 inv0) : ℚ) ≠
      ((createInvoice DB.empty reqC5 1).2.invoices.getD 0 inv0).tax ∧
    pdfTotal ((createInvoice DB.empty reqC5 1).2.invoices.getD 0 inv0) ≠
      ((createInvoice DB.empty reqC5 1).2.invoices.getD 0 inv0).total := by
  have hrun : createInvoice DB.empty reqC5 1 =
      (.created 1,
       { DB.empty with
          invoices := [invC5],
          invoiceItems := [serviceItem 1 { id := 9, description := none,
                                           unit_price := 7 }] }) := by
    simp only [createInvoice, reqC5, DB.empty, invC5, processServices,
      processParts, Prod.mk.injEq, CreateInvoiceResult.created.injEq]
    norm_num
  rw [hrun]
  simp only [List.getD_cons_zero]
  have hround : pdfTax invC5 = 901 := by
    unfold pdfTax
    rw [show invC5.subtotal * (18 / 100) = 90126 / 100 by norm_num [invC5]]
    rw [round_eq]
    norm_num
  constructor
  · rw [hround]
    norm_num [invC5]
  · unfold pdfTotal
    rw [hround]
    norm_num [invC5]

/-- C4: the exit-vehicle handler returns the "services incomplete"
domain error and leaves the state (hence `exit_time`) unchanged when any
`vehicle_services` row of the vehicle has status other than
"completed"; otherwise returns the "invoice missing" domain error and
leaves the state unchanged when zero invoices exist for the vehicle;
otherwise succeeds and sets the vehicle's `exit_time` to the current
time. -/
theorem exitVehicle_preconditions (db : DB) (vid : Nat) (now : ℚ) :
    (0 < countIncomplete db vid →
      exitVehicle db vid now = (.servicesIncomplete, db)) ∧
    (countIncomplete db vid = 0 → invoiceCount db vid = 0 →
      exitVehicle db vid now = (.invoiceMissing, db)) ∧
    (countIncomplete db vid = 0 → invoiceCount db vid ≠ 0 →
      (exitVehicle db vid now).1 = .ok ∧
      ∀ v ∈ (exitVehicle db vid now).2.vehicles, v.id = vid →
        v.exit_time = some now) := by
  refine ⟨?_, ?_, ?_⟩
  · intro h
    simp [exitVehicle, h]
  · intro h1 h2
    have hne : ¬ 0 < countIncomplete db vid := by omega
    simp [exitVehicle, hne, h2]
  · intro h1 h2
    have hne : ¬ 0 < countIncomplete db vid := by omega
    have hb : (invoiceCount db vid == 0) = false := by
      simpa using h2
    constructor
    · simp [exitVehicle, hne, hb]
    · intro v hv hid
      simp only [exitVehicle, if_neg hne, hb, Bool.false_eq_true,
        if_false, List.mem_map] at hv
      obtain ⟨w, -, hw⟩ := hv
      by_cases hwid : (w.id == vid) = true
      · rw [if_pos hwid] at hw
        rw [← hw]
      · rw [if_neg hwid] at hw
        subst hw
        exact absurd (by simpa using hid) hwid

/-- C4 witness database where the exit must fail: vehicle 1 has one
pending service. -/
def dbC4fail : DB :=
  { DB.empty with
     vehicles := [{ id := 1, plate := "RAD 123 A", make := none,
                    model_name := none, year := none, vin := none,
                    owner := "A", contact_number := "0788",
                    entry_time := 10, exit_time := none }],
     vehicleServices := [{ vehicle_id := 1, service_id := 2,
                           status := "pending", completed_time := none }] }

/-- C4 witness database where the exit must succeed: vehicle 1 has no
pending services and one invoice. -/
def dbC4ok : DB :=
  { DB.empty with
     vehicles := [{ id := 1, plate := "RAD 123 A", make := none,
                    model_name := none, year := none, vin := none,
                    owner := "A", contact_number := "0788",
                    entry_time := 10, exit_time := none }],
     invoices := [{ id := 4, vehicle_id := 1, days_in_garage := 1,
                    garage_stay_rate := 5000, subtotal := 5000, tax := 900,
                    total := 5900 }] }

/-- C4 witness: the precondition theorem applied to the concrete
databases `dbC4fail` (pending service → domain error, state unchanged)
and `dbC4ok` (all complete, invoice present → success). -/
theorem exitVehicle_preconditions_witness :
    exitVehicle dbC4fail 1 50 = (.servicesIncomplete, dbC4fail) ∧
    (exitVehicle dbC4ok 1 50).1 = .ok :=
  ⟨(exitVehicle_preconditions dbC4fail 1 50).1 (by decide),
   ((exitVehicle_preconditions dbC4ok 1 50).2.2 (by decide) (by decide)).1⟩

/-- C9 counterexample vehicle: already exited at time 100. -/
def vC9 : Vehicle :=
  { id := 1, plate := "RAD 999 B", make := none, model_name := none,
    year := none, vin := none, owner := "B", contact_number := "0789",
    entry_time := 10, exit_time := some 100 }

/-- `vC9` after the repeated exit at time 200. -/
def vC9after : Vehicle :=
  { id := 1, plate := "RAD 999 B", make := none, model_name := none,
    year := none, vin := none, owner := "B", contact_number := "0789",
    entry_time := 10, exit_time := some 200 }

/-- C9 counterexample database: vehicle 1 already exited at time 100,
with no pending services and one invoice. -/
def dbC9 : DB :=
  { DB.empty with
     vehicles := [vC9],
     invoices := [{ id := 4, vehicle_id := 1, days_in_garage := 1,
                    garage_stay_rate := 5000, subtotal := 5000, tax := 900,
                    total := 5900 }] }

/-- C9 (counterexample): the exit handler never checks that `exit_time`
is still NULL, so a repeated exit request on the already-exited vehicle
of `dbC9` (exit_time = 100) succeeds again and overwrites `exit_time`
with the new current time 200 — `exit_time` is not set at most once. -/
theorem exit_time_overwritten :
    vC9.exit_time = some 100 ∧
    (exitVehicle dbC9 1 200).1 = ExitResult.ok ∧
    (exitVehicle dbC9 1 200).2.vehicles = [vC9after] ∧
    vC9after.exit_time = some 200 := by
  refine ⟨by decide, by decide, by decide, by decide⟩

/-- C9 (amended): once a successful exit has assigned a non-null
`exit_time`, a repeated exit request on the same vehicle (whose services
are still all completed and whose invoice still exists) succeeds again
and overwrites `exit_time` with the new current time: `exit_time` is
set at most once only in the absence of repeated exit requests. -/
theorem exitVehicle_repeat_overwrites (db : DB) (vid : Nat)
    (t now : ℚ) (v : Vehicle) (hv : v ∈ db.vehicles) (hid : v.id = vid)
    (hprev : v.exit_time = some t)
    (h1 : countIncomplete db vid = 0) (h2 : invoiceCount db vid ≠ 0) :
    (exitVehicle db vid now).1 = .ok ∧
    ∀ w ∈ (exitVehicle db vid now).2.vehicles, w.id = vid →
      w.exit_time = some now := by
  have hne : ¬ 0 < countIncomplete db vid := by omega
  have hb : (invoiceCount db vid == 0) = false := by
    simpa using h2
  constructor
  · simp [exitVehicle, hne, hb]
  · intro w hw hwid
    simp only [exitVehicle, if_neg hne, hb, Bool.false_eq_true,
      if_false, List.mem_map] at hw
    obtain ⟨u, -, hu⟩ := hw
    by_cases huid : (u.id == vid) = true
    · rw [if_pos huid] at hu
      rw [← hu]
    · rw [if_neg huid] at hu
      subst hu
      exact absurd (by simpa using hwid) huid

/-- C9 witness: the overwrite theorem applied to the concrete repeated
exit on `dbC9`, whose vehicle already has `exit_time = some 100`;
instantiated at the concrete post-state row `vC9after`. -/
theorem exitVehicle_repeat_overwrites_witness :
    (exitVehicle dbC9 1 200).1 = .ok ∧ vC9after.exit_time = some 200 := by
  have h := exitVehicle_repeat_overwrites dbC9 1 100 200 vC9
    (by decide) (by decide) (by decide) (by decide) (by decide)
  exact ⟨h.1, h.2 vC9after (by decide) (by decide)⟩

/-- C3 failing-input invoice: invoice 10 belongs to vehicle 1. -/
def invC3 : Invoice :=
  { id := 10, vehicle_id := 1, days_in_garage := 1, garage_stay_rate := 5000,
    subtotal := 5000, tax := 900, total := 5900 }

/-- C3 failing-input invoice item: belongs to invoice 10. -/
def itemC3 : InvoiceItem :=
  { invoice_id := 10, item_type := "service", item_id := 1,
    description := some "Oil change", quantity := 1, purchased_cost := none,
    unit_price := 100, total := 100 }

/-- C3 failing-input database: vehicle 1 with invoice 10 and one invoice
item. -/
def dbC3 : DB :=
  { DB.empty with
     vehicles := [{ id := 1, plate := "RAD 777 C", make := none,
                    model_name := none, year := none, vin := none,
                    owner := "C", contact_number := "0790",
                    entry_time := 10, exit_time := none }],
     invoices := [invC3],
     invoiceItems := [itemC3] }

/-- C3 (code bug): Express dispatches `DELETE /api/vehicles/:id` to the
first registered handler (server.js:578), which runs a single
`DELETE FROM vehicles` with no cascade; the cascading handler
(server.js:986, commented "Delete vehicle (cascade invoices + items
first)") is shadowed and unreachable.  On `dbC3` the dispatched delete
reports success and removes the vehicle row but leaves the invoice of
vehicle 1 and its invoice item orphaned, contradicting the claimed
cascade. -/
theorem deleteVehicle_leaves_orphans :
    (handleDeleteVehicle dbC3 1).1 = DeleteResult.noContent ∧
    (handleDeleteVehicle dbC3 1).2.vehicles = [] ∧
    (handleDeleteVehicle dbC3 1).2.invoices = [invC3] ∧
    invC3.vehicle_id = 1 ∧
    (handleDeleteVehicle dbC3 1).2.invoiceItems = [itemC3] := by
  refine ⟨by decide, by decide, by decide, by decide, by decide⟩

/-- Supporting observation (not itself a claim): the shadowed second
registration (server.js:986) would have performed the cascade the spec
describes — on the same input it leaves no invoice and no invoice item
behind. -/
theorem deleteVehicleCascade_removes_all_on_dbC3 :
    (deleteVehicleCascade dbC3 1).1 = DeleteResult.noContent ∧
    (deleteVehicleCascade dbC3 1).2.vehicles = [] ∧
    (deleteVehicleCascade dbC3 1).2.invoices = [] ∧
    (deleteVehicleCascade dbC3 1).2.invoiceItems = [] := by
  refine ⟨by decide, by decide, by decide, by decide⟩

/-- Rows inserted under a fixed key survive a filter for that key
unchanged once the rows not carrying the key are deleted first. -/
theorem filter_replace {α : Type} (key : α → Nat) (vid : Nat)
    (old new : List α) (hnew : ∀ r ∈ new, key r = vid) :
    ((old.filter (fun r => key r != vid)) ++ new).filter
        (fun r => key r == vid) = new := by
  rw [List.filter_append]
  have h1 : (old.filter (fun r => key r != vid)).filter
      (fun r => key r == vid) = [] := by
    rw [List.filter_eq_nil_iff]
    intro a ha
    have h := (List.mem_filter.mp ha).2
    simp only [bne_iff_ne, ne_eq] at h
    simp [h]
  have h2 : new.filter (fun r => key r == vid) = new := by
    rw [List.filter_eq_self]
    intro a ha
    simpa using hnew a ha
  rw [h1, h2, List.nil_append]

/-- C6: a successful vehicle update replaces the vehicle's
standalone-parts and service-parts associations wholesale; after two
successive updates the rows of the vehicle are exactly those built from
the second request's lists — full replace, never append. -/
theorem updateVehicle_full_replace (db : DB) (vid : Nat)
    (req1 req2 : UpdateVehicleReq) (db1 db2 : DB)
    (h1 : updateVehicle db vid req1 = (.ok, db1))
    (h2 : updateVehicle db1 vid req2 = (.ok, db2)) :
    db2.vehicleParts.filter (fun r => r.vehicle_id == vid)
      = standalonePartRows vid (req2.standalone_parts.getD []) ∧
    db2.vehicleServiceParts.filter (fun r => r.vehicle_id == vid)
      = servicePartRows vid (req2.service_parts.getD []) := by
  unfold updateVehicle at h2
  split at h2
  · exact absurd h2 (by simp)
  · rcases hf : db1.vehicles.find? (fun v => v.id == vid) with _ | v
    · rw [hf] at h2; exact absurd h2 (by simp)
    · rw [hf] at h2
      simp only [Prod.mk.injEq] at h2
      obtain ⟨-, hdb⟩ := h2
      subst hdb
      constructor
      · refine filter_replace (fun r : VehiclePart => r.vehicle_id) vid _ _ ?_
        intro r hr
        simp only [standalonePartRows, List.mem_map] at hr
        obtain ⟨p, -, hp⟩ := hr
        rw [← hp]
      · refine filter_replace (fun r : VehicleServicePart => r.vehicle_id) vid _ _ ?_
        intro r hr
        simp only [servicePartRows, List.mem_map] at hr
        obtain ⟨p, -, hp⟩ := hr
        rw [← hp]

/-- C6 witness vehicle. -/
def vC6 : Vehicle :=
  { id := 1, plate := "RAD 555 D", make := none, model_name := none,
    year := none, vin := none, owner := "D", contact_number := "0791",
    entry_time := 10, exit_time := none }

/-- C6 witness database: vehicle 1 present, no associations yet. -/
def dbC6 : DB := { DB.empty with vehicles := [vC6] }

/-- C6 first update request: standalone part 2, service part (3, 4). -/
def reqC6a : UpdateVehicleReq :=
  { plate := "RAD 555 D", make := none, model_name := none, year := none,
    vin := none, owner := "D", contact_number := "0791",
    standalone_parts := some [{ part_id := 2, quantity := 1 }],
    service_parts := some [{ service_id := 3, part_id := 4, quantity := 2 }] }

/-- C6 second update request: a different standalone part 5 and a
different service part (6, 7). -/
def reqC6b : UpdateVehicleReq :=
  { plate := "RAD 555 D", make := none, model_name := none, year := none,
    vin := none, owner := "D", contact_number := "0791",
    standalone_parts := some [{ part_id := 5, quantity := 3 }],
    service_parts := some [{ service_id := 6, part_id := 7, quantity := 4 }] }

/-- C6 witness: the full-replace theorem applied to two successive
concrete updates of vehicle 1 with different part lists; exactly the
second request's rows remain. -/
theorem updateVehicle_full_replace_witness :
    (updateVehicle (updateVehicle dbC6 1 reqC6a).2 1 reqC6b).2.vehicleParts.filter
        (fun r => r.vehicle_id == 1)
      = standalonePartRows 1 (reqC6b.standalone_parts.getD []) ∧
    (updateVehicle (updateVehicle dbC6 1 reqC6a).2 1 reqC6b).2.vehicleServiceParts.filter
        (fun r => r.vehicle_id == 1)
      = servicePartRows 1 (reqC6b.service_parts.getD []) :=
  updateVehicle_full_replace dbC6 1 reqC6a reqC6b
    (updateVehicle dbC6 1 reqC6a).2
    (updateVehicle (updateVehicle dbC6 1 reqC6a).2 1 reqC6b).2
    (by decide) (by decide)

/-- C7: deleting an existing worker (one transaction) leaves no
`services` row referencing the worker (worker_id set to null), zero
`worker_payments` rows for the worker, and no worker row; deleting a
non-existent worker id fails NotFound. -/
theorem deleteWorker_spec (db : DB) (wid : Nat) :
    ((∃ w ∈ db.workers, w.id = wid) →
      (deleteWorker db wid).1 = .noContent ∧
      (∀ s ∈ (deleteWorker db wid).2.services, s.worker_id ≠ some wid) ∧
      (deleteWorker db wid).2.workerPayments.filter
          (fun p => p.worker_id == wid) = [] ∧
      (deleteWorker db wid).2.workers.filter (fun w => w.id == wid) = []) ∧
    ((¬ ∃ w ∈ db.workers, w.id = wid) →
      (deleteWorker db wid).1 = .notFound) := by
  constructor
  · rintro ⟨w, hw, hwid⟩
    have hmem : w ∈ db.workers.filter (fun w => w.id == wid) :=
      List.mem_filter.mpr ⟨hw, by simp [hwid]⟩
    have hlen : ((db.workers.filter (fun w => w.id == wid)).length == 0)
        = false := by
      have := List.length_pos.mpr (List.ne_nil_of_mem hmem)
      simp only [beq_eq_false_iff_ne, ne_eq]
      omega
    refine ⟨?_, ?_, ?_, ?_⟩
    · simp [deleteWorker, hlen]
    · intro s hs
      simp only [deleteWorker, hlen, Bool.false_eq_true, if_false,
        List.mem_map] at hs
      obtain ⟨u, -, hu⟩ := hs
      by_cases huid : (u.worker_id == some wid) = true
      · rw [if_pos huid] at hu
        rw [← hu]
        simp
      · rw [if_neg huid] at hu
        subst hu
        simpa using huid
    · simp only [deleteWorker, hlen, Bool.false_eq_true, if_false]
      rw [List.filter_filter, List.filter_eq_nil_iff]
      intro p _
      simp
    · simp only [deleteWorker, hlen, Bool.false_eq_true, if_false]
      rw [List.filter_filter, List.filter_eq_nil_iff]
      intro w _
      simp
  · intro h
    have hnil : db.workers.filter (fun w => w.id == wid) = [] := by
      rw [List.filter_eq_nil_iff]
      intro a ha
      simp only [beq_iff_eq]
      exact fun hc => h ⟨a, ha, hc⟩
    simp [deleteWorker, hnil]

/-- C7 witness worker: id 7, assigned to service 2, with three payment
rows. -/
def wC7 : Worker := { id := 7, name := "Sam" }

/-- C7 witness service: assigned to worker 7 before the delete. -/
def sC7 : Service := { id := 2, name := "Brakes", worker_id := some 7 }

/-- `sC7` after the delete: `worker_id` nulled out. -/
def sC7after : Service := { id := 2, name := "Brakes", worker_id := none }

/-- C7 witness database. -/
def dbC7 : DB :=
  { DB.empty with
     workers := [wC7],
     services := [sC7],
     workerPayments :=
       [{ id := 1, worker_id := 7, amount := 100, method := none,
          notes := none, payment_date := 1 },
        { id := 2, worker_id := 7, amount := 200, method := none,
          notes := none, payment_date := 2 },
        { id := 3, worker_id := 7, amount := 300, method := none,
          notes := none, payment_date := 3 }] }

/-- C7 witness: the delete-worker theorem applied to the concrete
database `dbC7` (worker 7 exists) and to the empty database (worker 7
absent → NotFound); the nulled-out service row `sC7after` is
instantiated explicitly. -/
theorem deleteWorker_spec_witness :
    (deleteWorker dbC7 7).1 = .noContent ∧
    sC7after.worker_id ≠ some 7 ∧
    (deleteWorker dbC7 7).2.workerPayments.filter
        (fun p => p.worker_id == 7) = [] ∧
    (deleteWorker dbC7 7).2.workers.filter (fun w => w.id == 7) = [] ∧
    (deleteWorker DB.empty 7).1 = .notFound := by
  have h := (deleteWorker_spec dbC7 7).1 ⟨wC7, by decide, rfl⟩
  have h2 := (deleteWorker_spec DB.empty 7).2 (by simp [DB.empty])
  exact ⟨h.1, h.2.1 sC7after (by decide), h.2.2.1, h.2.2.2, h2⟩

/-- The `worker_payments` row inserted by a successful add-payment
request: amount `Number(amount)`, `payment_date = COALESCE(parsed
supplied date, NOW())`. -/
def paymentRow (wid : Nat) (req : PaymentReq) (now : ℚ) (newId : Nat) :
    WorkerPayment :=
  { id := newId, worker_id := wid, amount := (jsNumber req.amount).getD 0,
    method := req.method, notes := req.notes,
    payment_date := (resolveWhen req.payment_date).getD now }

/-- C8 (amended): the add-payment operation returns a validation error
iff `amount` is JS-falsy (absent/null, the number 0, or an empty
string) or non-numeric — so the number 0, though present and numeric,
is rejected, which is what breaks the claim's "iff absent or
non-numeric".  When it succeeds, the persisted `payment_date` is the
parsed supplied date when one was supplied and parseable, and otherwise
the store-resolved current time. -/
theorem addPayment_validation_and_date (db : DB) (wid : Nat)
    (req : PaymentReq) (now : ℚ) (newId : Nat) :
    ((addPayment db wid req now newId).1 = .invalidAmount ↔
      (jsTruthy req.amount = false ∨ jsNumber req.amount = none)) ∧
    (jsTruthy req.amount = true → jsNumber req.amount ≠ none →
      (addPayment db wid req now newId).2.workerPayments
        = db.workerPayments ++ [paymentRow wid req now newId]) ∧
    (∀ t, req.payment_date = DateVal.dvalid t →
      (paymentRow wid req now newId).payment_date = t) ∧
    (resolveWhen req.payment_date = none →
      (paymentRow wid req now newId).payment_date = now) := by
  refine ⟨?_, ?_, ?_, ?_⟩
  · by_cases hc : (!(jsTruthy req.amount) || (jsNumber req.amount).isNone)
        = true
    · simp only [addPayment, hc, if_true]
      simp only [Bool.or_eq_true, Bool.not_eq_eq_eq_not, Bool.not_true,
        Option.isNone_iff_eq_none] at hc
      simpa using hc
    · simp only [addPayment, hc, Bool.false_eq_true, if_false]
      simp only [Bool.or_eq_true, Bool.not_eq_eq_eq_not, Bool.not_true,
        Option.isNone_iff_eq_none] at hc
      push_neg at hc
      constructor
      · intro habs
        exact absurd habs (by simp)
      · intro habs
        rcases habs with h | h
        · exact absurd h hc.1
        · exact absurd h hc.2
  · intro h1 h2
    have hc : (!(jsTruthy req.amount) || (jsNumber req.amount).isNone)
        = false := by
      simp [h1, Option.isNone_iff_eq_none, h2, Option.isSome_iff_ne_none]
    simp [addPayment, hc, paymentRow]
  · intro t ht
    simp [paymentRow, ht, resolveWhen]
  · intro h
    simp [paymentRow, h]

/-- C8 counterexample request: amount is the number 0 — present and
numeric. -/
def reqC8 : PaymentReq :=
  { amount := JVal.jnum 0, method := none, notes := none,
    payment_date := DateVal.dabsent }

/-- C8 (counterexample): the request `reqC8` carries amount 0, which is
present (not null/absent) and numeric (`Number(0) = 0`, not NaN), yet
the operation returns the validation error, because the guard
`!amount` treats the number 0 as missing — the claim's "if and only if
amount is absent or non-numeric" is false. -/
theorem addPayment_zero_amount_rejected :
    (addPayment DB.empty 7 reqC8 100 1).1 = AddPaymentResult.invalidAmount ∧
    reqC8.amount ≠ JVal.jnull ∧
    jsNumber reqC8.amount = some 0 := by
  refine ⟨by decide, by decide, by decide⟩

/-- C8 witness request: a valid numeric amount and a parseable supplied
date. -/
def reqW8 : PaymentReq :=
  { amount := JVal.jnum 25, method := some "cash", notes := none,
    payment_date := DateVal.dvalid 42 }

/-- C8 second witness request: valid amount, unparseable date. -/
def reqW8b : PaymentReq :=
  { amount := JVal.jnum 25, method := none, notes := none,
    payment_date := DateVal.dinvalid }

/-- C8 witness: the validation/date theorem applied to the concrete
requests `reqW8` (parseable date 42 → stored as 42) and `reqW8b`
(unparseable date → stored as the store clock 100). -/
theorem addPayment_validation_and_date_witness :
    ((addPayment DB.empty 7 reqW8 100 1).1 = .invalidAmount ↔
      (jsTruthy reqW8.amount = false ∨ jsNumber reqW8.amount = none)) ∧
    (addPayment DB.empty 7 reqW8 100 1).2.workerPayments
      = DB.empty.workerPayments ++ [paymentRow 7 reqW8 100 1] ∧
    (paymentRow 7 reqW8 100 1).payment_date = 42 ∧
    (paymentRow 7 reqW8b 100 1).payment_date = 100 := by
  have h := addPayment_validation_and_date DB.empty 7 reqW8 100 1
  have hb := addPayment_validation_and_date DB.empty 7 reqW8b 100 1
  exact ⟨h.1, h.2.1 (by decide) (by decide), h.2.2.1 42 rfl,
    hb.2.2.2 (by decide)⟩

end GMS
